import Mathlib

/-!
A shallow embedding of the container provisioning pipeline of db-mgr
(src/docker.rs and src/app/add_container.rs).

The Docker daemon is modelled by an oracle (`DockerWorld`) giving the outcome
of each runtime API call; the provisioning pipeline `create_container` is
translated from `src/docker.rs::create_container` as a pure function from the
oracle and the submitted `DbContainerConfig` to the ordered list of events sent
on its channel, paired with the ordered list of runtime API calls it performs.
The `SubmitPressed` handler of `src/app/add_container.rs` is translated as the
pure transform `submitTransform`; the `NameChanged` handler as `nameChanged`.
Rust `HashMap`s are modelled as association lists.
-/

namespace DbMgr

/-- The event enum of src/docker.rs (`CreateContainerEvent`). -/
inductive CreateContainerEvent
  | Pulling
  | Building
  | Done
  | Error (msg : String)
deriving DecidableEq, Repr

/-- Outcome of a Docker inspect call, as matched by src/docker.rs:
a 404 server error (`notFound`), a successful inspect (`found`), or any
other error carrying its rendered message. -/
inductive InspectResult
  | notFound
  | found
  | otherError (msg : String)
deriving DecidableEq, Repr

/-- One element of the image-pull stream returned by `create_image`:
either a progress item (`ok`) or an error item carrying its message. -/
inductive PullItem
  | ok
  | pullError (msg : String)
deriving DecidableEq, Repr

/-- `DbContainerConfig` of src/docker.rs. `vars` embeds the source field
`variables` (renamed: that word is reserved in Lean); it and `voluems` (sic,
the source field name) are Rust `HashMap<String, String>` modelled as
association lists. -/
structure DbContainerConfig where
  name : String
  vars : List (String × String)
  image : String
  voluems : List (String × String)
  tag : String
deriving DecidableEq, Repr

/-- A runtime API call performed by the pipeline, recorded with the arguments
the source passes: the container name inspected, the image and tag pulled,
each volume name inspected and created, and the create-container call with
its name, `image:tag` reference, env strings and (volume name, mount path)
mounts. -/
inductive DockerCall
  | inspectContainer (name : String)
  | createImage (image tag : String)
  | inspectVolume (name : String)
  | createVolume (name : String)
  | createContainer (name image : String) (env : List String)
      (mounts : List (String × String))
  | startContainer (name : String)
deriving DecidableEq, Repr

/-- The Docker daemon oracle: the outcome each runtime API call would have in
this run. Results of fallible calls are `Except String Unit` as in the
source's `anyhow::Result<()>`, with the rendered error message. -/
structure DockerWorld where
  inspectContainer : String → InspectResult
  pullStream : List PullItem
  inspectVolume : String → InspectResult
  createVolumeResult : String → Except String Unit
  createContainerResult : String → Except String Unit
  startContainerResult : String → Except String Unit

/-- src/docker.rs `create_volume`: inspect the volume; a 404 means the name is
free and the volume is created; a successful inspect is the conflict error
`Container name conflict <name>`; any other inspect error is propagated. -/
def create_volume (w : DockerWorld) (name : String) : Except String Unit :=
  match w.inspectVolume name with
  | InspectResult.notFound => w.createVolumeResult name
  | InspectResult.found => Except.error ("Container name conflict " ++ name)
  | InspectResult.otherError msg => Except.error msg

/-- The pull loop of `create_container`
(`while let Some(result) = image_pull_stream.next().await`): one `Pulling`
event is sent per stream element, before the element's own error check, so an
error element still yields its `Pulling` event and then aborts with the error
message. Returns the events of the loop and the error, if any. -/
def pullEvents : List PullItem → List CreateContainerEvent × Option String
  | [] => ([], none)
  | PullItem.ok :: rest =>
    (CreateContainerEvent.Pulling :: (pullEvents rest).1, (pullEvents rest).2)
  | PullItem.pullError msg :: _ => ([CreateContainerEvent.Pulling], some msg)

/-- The volume loop of `create_container`
(`for (name, _) in container_config.voluems.iter()`): volumes are processed
sequentially in list order and `create_volume(docker, name).await?` aborts the
loop at the first error, which is returned. -/
def provisionVolumes (w : DockerWorld) : List (String × String) → Option String
  | [] => none
  | (name, _) :: rest =>
    match create_volume w name with
    | Except.ok _ => provisionVolumes w rest
    | Except.error msg => some msg

/-- The runtime API calls the volume loop performs, in order: for each volume
until the first failure, an inspect and (when the name was free) a create. -/
def volumeCalls (w : DockerWorld) : List (String × String) → List DockerCall
  | [] => []
  | (name, _) :: rest =>
    match w.inspectVolume name with
    | InspectResult.found => [DockerCall.inspectVolume name]
    | InspectResult.otherError _ => [DockerCall.inspectVolume name]
    | InspectResult.notFound =>
      match w.createVolumeResult name with
      | Except.error _ => [DockerCall.inspectVolume name, DockerCall.createVolume name]
      | Except.ok _ =>
        DockerCall.inspectVolume name :: DockerCall.createVolume name ::
          volumeCalls w rest

/-- The env strings of `create_container`:
`format!("{name}=\"{value}\"")` for each variable entry, in order. -/
def envStrings (vs : List (String × String)) : List String :=
  vs.map (fun p => p.1 ++ "=\"" ++ p.2 ++ "\"")

/-- The create-container runtime call with the arguments the source composes:
the config's name, the `image:tag` reference, the env strings, and one
(volume name, mount path) mount per `voluems` entry (source = name,
target = path). -/
def containerCreateCall (cfg : DbContainerConfig) : DockerCall :=
  DockerCall.createContainer cfg.name (cfg.image ++ ":" ++ cfg.tag)
    (envStrings cfg.vars) cfg.voluems

/-- The tail of the run after the `Building` event was sent: the volume loop,
then the create-container call, then the start call. The single returned
event is the terminal event the closure's result is mapped to by the
`.then(...)` continuation (`Error` on the first failure, else `Done`). -/
def buildPhase (w : DockerWorld) (cfg : DbContainerConfig) :
    List CreateContainerEvent × List DockerCall :=
  match provisionVolumes w cfg.voluems with
  | some msg => ([CreateContainerEvent.Error msg], volumeCalls w cfg.voluems)
  | none =>
    match w.createContainerResult cfg.name with
    | Except.error msg =>
      ([CreateContainerEvent.Error msg],
       volumeCalls w cfg.voluems ++ [containerCreateCall cfg])
    | Except.ok _ =>
      match w.startContainerResult cfg.name with
      | Except.error msg =>
        ([CreateContainerEvent.Error msg],
         volumeCalls w cfg.voluems ++
           [containerCreateCall cfg, DockerCall.startContainer cfg.name])
      | Except.ok _ =>
        ([CreateContainerEvent.Done],
         volumeCalls w cfg.voluems ++
           [containerCreateCall cfg, DockerCall.startContainer cfg.name])

/-- src/docker.rs `create_container`, as the ordered list of events sent on
the channel paired with the ordered list of runtime API calls performed.
The phases in source order: inspect the container name (a successful inspect
is the conflict error, a non-404 error is propagated, both becoming the sole
`Error` event); consume the pull stream, one `Pulling` per element; send
`Building`; run the volume loop; create and start the container; the
`.then(...)` continuation sends `Done` on success or `Error` with the
failure's message. -/
def create_container (w : DockerWorld) (cfg : DbContainerConfig) :
    List CreateContainerEvent × List DockerCall :=
  match w.inspectContainer cfg.name with
  | InspectResult.found =>
    ([CreateContainerEvent.Error ("Container name conflict " ++ cfg.name)],
     [DockerCall.inspectContainer cfg.name])
  | InspectResult.otherError msg =>
    ([CreateContainerEvent.Error msg], [DockerCall.inspectContainer cfg.name])
  | InspectResult.notFound =>
    match (pullEvents w.pullStream).2 with
    | some msg =>
      ((pullEvents w.pullStream).1 ++ [CreateContainerEvent.Error msg],
       [DockerCall.inspectContainer cfg.name,
        DockerCall.createImage cfg.image cfg.tag])
    | none =>
      ((pullEvents w.pullStream).1 ++
         CreateContainerEvent.Building :: (buildPhase w cfg).1,
       [DockerCall.inspectContainer cfg.name,
        DockerCall.createImage cfg.image cfg.tag] ++ (buildPhase w cfg).2)

/-- The fixed volume namespacing scheme of the `SubmitPressed` handler:
`format!("db-mgr__{}__{name}", config.name)`. -/
def namespaceVolume (container vol : String) : String :=
  "db-mgr__" ++ container ++ "__" ++ vol

/-- The `SubmitPressed` handler of src/app/add_container.rs: the submitted
config is the edited config with every volume name namespaced by the entered
container name, the variables with empty values filtered out, and the name
prefixed with `db-mgr__` (`format!("db-mgr__{}", config.name)`). -/
def submitTransform (cfg : DbContainerConfig) : DbContainerConfig :=
  { name := "db-mgr__" ++ cfg.name
    vars := cfg.vars.filter (fun p => p.2 != "")
    image := cfg.image
    voluems := cfg.voluems.map (fun p => (namespaceVolume cfg.name p.1, p.2))
    tag := cfg.tag }

/-- The `NameChanged` handler of src/app/add_container.rs:
`config.name = name.replace(" ", "-")`, i.e. every space character of the
entered string becomes a dash (the pattern is the single character
string chr(32)). -/
def nameChanged (entered : String) : String :=
  String.mk (entered.toList.map (fun c => if c = ' ' then '-' else c))

/-- The container lifecycle state enum (`ContainerStateStatusEnum` of the
bollard service types). -/
inductive ContainerStateStatusEnum
  | EMPTY
  | CREATED
  | RUNNING
  | PAUSED
  | RESTARTING
  | REMOVING
  | EXITED
  | DEAD
deriving DecidableEq, Repr

/-- `DbContainer` of src/docker.rs, the projection of a listed container.
`vars` embeds the source field `variables`; maps are association lists. -/
structure DbContainer where
  id : String
  name : String
  state : ContainerStateStatusEnum
  vars : List (String × String)
  image : String
  volumes : List (String × String)
deriving DecidableEq, Repr

/-- The `Config` part of an inspect response used by `get_containers`:
optional image reference and optional flat env strings. -/
structure RespConfig where
  image : Option String
  env : Option (List String)
deriving DecidableEq, Repr

/-- The `State` part of an inspect response: an optional status. -/
structure RespState where
  status : Option ContainerStateStatusEnum
deriving DecidableEq, Repr

/-- One mount of an inspect response: optional volume name, source path and
destination path. -/
structure RespMount where
  name : Option String
  source : Option String
  destination : Option String
deriving DecidableEq, Repr

/-- The fields of a `ContainerInspectResponse` that `get_containers` reads;
every one is optional in the runtime's wire format. -/
structure InspectResponse where
  id : Option String
  name : Option String
  config : Option RespConfig
  state : Option RespState
  mounts : Option (List RespMount)
deriving DecidableEq, Repr

/-- Rust `str::split_once("=")` on the character list of an env entry: the
parts before and after the first equals sign, or none when there is no
equals sign. -/
def splitOnceEq : List Char → Option (List Char × List Char)
  | [] => none
  | c :: rest =>
    if c = '=' then some ([], rest)
    else (splitOnceEq rest).map (fun p => (c :: p.1, p.2))

/-- The env-entry parsing of `get_containers`: `entry.split_once("=")` gives
(name, value); an entry with no equals sign becomes (entry, ""). -/
def parseEnvEntry (entry : String) : String × String :=
  match splitOnceEq entry.toList with
  | some p => (String.mk p.1, String.mk p.2)
  | none => (entry, "")

/-- The projection of one inspect response into a `DbContainer`, the body of
the second `filter_map` of `get_containers`: the `?` operators make the
result `none` as soon as one of id, name, config, config.image, state or
state.status is missing; mounts and env are optional and default to empty,
a mount is kept when it has a name (or, failing that, a source) and a
destination. -/
def projectContainer (r : InspectResponse) : Option DbContainer := do
  let id ← r.id
  let name ← r.name
  let cfg ← r.config
  let image ← cfg.image
  let st ← r.state
  let status ← st.status
  pure
    { id := id
      name := name
      state := status
      image := image
      volumes :=
        (r.mounts.map (fun ms =>
          ms.filterMap (fun m =>
            (m.name.orElse (fun _ => m.source)).bind
              (fun n => m.destination.map (fun d => (n, d)))))).getD []
      vars := (cfg.env.map (fun es => es.map parseEnvEntry)).getD [] }

/-- One element of the `list_containers` summary list: only its optional id
is read by `get_containers`. -/
structure ContainerSummary where
  id : Option String
deriving DecidableEq, Repr

/-- src/docker.rs `get_containers`, over the label-filtered summary list the
runtime returns (or the listing error) and an oracle giving each id's
inspect response when the inspect call succeeds (`out.ok()` discards a
failed inspect). Summaries without an id or whose inspect fails are dropped
by the first `filter_map`; responses missing a required field are dropped by
`projectContainer`; only a failed listing makes the whole call an error. -/
def get_containers (listing : Except String (List ContainerSummary))
    (inspect : String → Option InspectResponse) :
    Except String (List DbContainer) :=
  match listing with
  | Except.error e => Except.error e
  | Except.ok summaries =>
    Except.ok
      ((summaries.filterMap (fun s => s.id.bind inspect)).filterMap
        projectContainer)

/-- Whether an event is terminal for the run (`Done` or `Error`). -/
def isTerminal : CreateContainerEvent → Bool
  | CreateContainerEvent.Done => true
  | CreateContainerEvent.Error _ => true
  | _ => false

/-- A daemon where every call succeeds: the container name is free, the pull
stream yields two progress items, every volume name is free and every
create/start call succeeds. -/
def happyWorld : DockerWorld where
  inspectContainer := fun _ => InspectResult.notFound
  pullStream := [PullItem.ok, PullItem.ok]
  inspectVolume := fun _ => InspectResult.notFound
  createVolumeResult := fun _ => Except.ok ()
  createContainerResult := fun _ => Except.ok ()
  startContainerResult := fun _ => Except.ok ()

/-- `happyWorld` with an empty pull stream (an already-cached image whose
pull stream yields zero elements). -/
def cachedWorld : DockerWorld where
  inspectContainer := fun _ => InspectResult.notFound
  pullStream := []
  inspectVolume := fun _ => InspectResult.notFound
  createVolumeResult := fun _ => Except.ok ()
  createContainerResult := fun _ => Except.ok ()
  startContainerResult := fun _ => Except.ok ()

/-- A daemon where the container name is free and the pull stream is empty,
but every volume name is already taken (volume-name collision). -/
def volConflictWorld : DockerWorld where
  inspectContainer := fun _ => InspectResult.notFound
  pullStream := []
  inspectVolume := fun _ => InspectResult.found
  createVolumeResult := fun _ => Except.ok ()
  createContainerResult := fun _ => Except.ok ()
  startContainerResult := fun _ => Except.ok ()

/-- A daemon where only the volume name `v2` is already taken. -/
def volFailWorld : DockerWorld where
  inspectContainer := fun _ => InspectResult.notFound
  pullStream := [PullItem.ok]
  inspectVolume := fun nm =>
    if nm = "v2" then InspectResult.found else InspectResult.notFound
  createVolumeResult := fun _ => Except.ok ()
  createContainerResult := fun _ => Except.ok ()
  startContainerResult := fun _ => Except.ok ()

/-- The end-to-end example spec of the spec document, as entered by the
operator (before the `SubmitPressed` transform). -/
def pgSpec : DbContainerConfig where
  name := "pg"
  vars := [("POSTGRES_PASSWORD", "x")]
  image := "postgres"
  voluems := [("data", "/var/lib/postgresql/data")]
  tag := "latest"

end DbMgr

deriving instance DecidableEq for Except

namespace DbMgr

/-- Every event of the pull loop is `Pulling`. -/
theorem mem_pullEvents (s : List PullItem) (e : CreateContainerEvent)
    (h : e ∈ (pullEvents s).1) : e = CreateContainerEvent.Pulling := by
  induction s with
  | nil => simp [pullEvents] at h
  | cons i rest ih =>
    cases i with
    | ok =>
      rcases List.mem_cons.mp h with h1 | h1
      · exact h1
      · exact ih h1
    | pullError m =>
      simpa [pullEvents] using h

/-- An all-success pull stream yields one `Pulling` event per element and no
error. -/
theorem pullEvents_all_ok (s : List PullItem) (h : ∀ i ∈ s, i = PullItem.ok) :
    pullEvents s = (List.replicate s.length CreateContainerEvent.Pulling, none) := by
  induction s with
  | nil => simp [pullEvents]
  | cons i rest ih =>
    have hi : i = PullItem.ok := h i (by simp)
    subst hi
    have hrest := ih (fun j hj => h j (List.mem_cons_of_mem _ hj))
    simp [pullEvents, hrest, List.replicate_succ]

/-- `create_volume` succeeds exactly when the inspect is a 404 and the create
call succeeds. -/
theorem create_volume_ok_iff (w : DockerWorld) (nm : String) :
    create_volume w nm = Except.ok () ↔
      (w.inspectVolume nm = InspectResult.notFound ∧
        w.createVolumeResult nm = Except.ok ()) := by
  unfold create_volume
  cases h : w.inspectVolume nm <;> simp

/-- The volume loop reports no error when every volume's `create_volume`
succeeds. -/
theorem provisionVolumes_ok (w : DockerWorld) (vols : List (String × String))
    (h : ∀ q ∈ vols, create_volume w q.1 = Except.ok ()) :
    provisionVolumes w vols = none := by
  induction vols with
  | nil => simp [provisionVolumes]
  | cons q rest ih =>
    obtain ⟨name, p⟩ := q
    have h1 : create_volume w name = Except.ok () := h (name, p) (by simp)
    have h2 := ih (fun j hj => h j (List.mem_cons_of_mem _ hj))
    simp [provisionVolumes, h1, h2]

/-- A run of all-succeeding volumes at the front of the loop does not change
the loop's outcome on the rest. -/
theorem provisionVolumes_append_ok (w : DockerWorld)
    (pre rest : List (String × String))
    (h : ∀ q ∈ pre, create_volume w q.1 = Except.ok ()) :
    provisionVolumes w (pre ++ rest) = provisionVolumes w rest := by
  induction pre with
  | nil => simp
  | cons q pre ih =>
    obtain ⟨name, p⟩ := q
    have h1 : create_volume w name = Except.ok () := h (name, p) (by simp)
    have h2 := ih (fun j hj => h j (List.mem_cons_of_mem _ hj))
    simp [provisionVolumes, h1, h2]

/-- The calls of the volume loop across an all-succeeding front. -/
theorem volumeCalls_append_ok (w : DockerWorld)
    (pre rest : List (String × String))
    (h : ∀ q ∈ pre, create_volume w q.1 = Except.ok ()) :
    volumeCalls w (pre ++ rest) = volumeCalls w pre ++ volumeCalls w rest := by
  induction pre with
  | nil => simp [volumeCalls]
  | cons q pre ih =>
    obtain ⟨name, p⟩ := q
    have h1 : create_volume w name = Except.ok () := h (name, p) (by simp)
    obtain ⟨hins, hcrt⟩ := (create_volume_ok_iff w name).mp h1
    have h2 := ih (fun j hj => h j (List.mem_cons_of_mem _ hj))
    simp [volumeCalls, hins, hcrt, h2]

/-- The volume loop stops at its first failing volume: when the loop reaches a
failing volume, its calls do not depend on the volumes after it. -/
theorem volumeCalls_stop (w : DockerWorld) (n : String) (p msg : String)
    (post : List (String × String))
    (hfail : create_volume w n = Except.error msg) :
    volumeCalls w ((n, p) :: post) = volumeCalls w [(n, p)] := by
  unfold create_volume at hfail
  cases hins : w.inspectVolume n with
  | notFound =>
    rw [hins] at hfail
    cases hcrt : w.createVolumeResult n with
    | ok u => rw [hcrt] at hfail; cases hfail
    | error m => simp [volumeCalls, hins, hcrt]
  | found => simp [volumeCalls, hins]
  | otherError m => simp [volumeCalls, hins]

/-- Every call of the volume loop is an inspect-volume or a create-volume
call. -/
theorem mem_volumeCalls (w : DockerWorld) (vols : List (String × String))
    (c : DockerCall) (h : c ∈ volumeCalls w vols) :
    (∃ nm, c = DockerCall.inspectVolume nm) ∨
      (∃ nm, c = DockerCall.createVolume nm) := by
  induction vols with
  | nil => simp [volumeCalls] at h
  | cons q rest ih =>
    obtain ⟨name, p⟩ := q
    cases hins : w.inspectVolume name with
    | found =>
      simp [volumeCalls, hins] at h
      exact Or.inl ⟨name, h⟩
    | otherError m =>
      simp [volumeCalls, hins] at h
      exact Or.inl ⟨name, h⟩
    | notFound =>
      cases hcrt : w.createVolumeResult name with
      | error m =>
        simp [volumeCalls, hins, hcrt] at h
        rcases h with h | h
        · exact Or.inl ⟨name, h⟩
        · exact Or.inr ⟨name, h⟩
      | ok u =>
        simp [volumeCalls, hins, hcrt] at h
        rcases h with h | h | h
        · exact Or.inl ⟨name, h⟩
        · exact Or.inr ⟨name, h⟩
        · exact ih h

/-- The build phase emits exactly one event, and it is terminal: `Done` or an
`Error`. -/
theorem buildPhase_fst (w : DockerWorld) (cfg : DbContainerConfig) :
    (buildPhase w cfg).1 = [CreateContainerEvent.Done] ∨
      ∃ msg, (buildPhase w cfg).1 = [CreateContainerEvent.Error msg] := by
  unfold buildPhase
  split
  · exact Or.inr ⟨_, rfl⟩
  · split
    · exact Or.inr ⟨_, rfl⟩
    · split
      · exact Or.inr ⟨_, rfl⟩
      · exact Or.inl rfl

/-- The create-container call of a run, when one is made, carries exactly the
config's name, its `image:tag` reference, its env strings and its volume
mounts. -/
theorem createCall_spec (w : DockerWorld) (cfg : DbContainerConfig)
    (nm img : String) (env : List String) (mounts : List (String × String))
    (h : DockerCall.createContainer nm img env mounts ∈
      (create_container w cfg).2) :
    nm = cfg.name ∧ img = cfg.image ++ ":" ++ cfg.tag ∧
      env = envStrings cfg.vars ∧ mounts = cfg.voluems := by
  have hvc : DockerCall.createContainer nm img env mounts ∉
      volumeCalls w cfg.voluems := by
    intro hmem
    rcases mem_volumeCalls w cfg.voluems _ hmem with ⟨nm2, he⟩ | ⟨nm2, he⟩ <;>
      cases he
  have hcc : DockerCall.createContainer nm img env mounts = containerCreateCall cfg →
      nm = cfg.name ∧ img = cfg.image ++ ":" ++ cfg.tag ∧
        env = envStrings cfg.vars ∧ mounts = cfg.voluems := by
    intro he
    unfold containerCreateCall at he
    cases he
    exact ⟨rfl, rfl, rfl, rfl⟩
  unfold create_container at h
  split at h
  · simp at h
  · simp at h
  · split at h
    · simp at h
    · simp only [List.mem_append, List.mem_cons] at h
      rcases h with (h | h | h) | h
      · cases h
      · cases h
      · simp at h
      unfold buildPhase at h
      split at h
      · exact absurd h hvc
      · split at h
        · rcases List.mem_append.mp h with h | h
          · exact absurd h hvc
          · exact hcc (List.mem_singleton.mp h)
        · split at h <;>
          · rcases List.mem_append.mp h with h | h
            · exact absurd h hvc
            · rcases List.mem_cons.mp h with h | h
              · exact hcc h
              · simp at h

/-- Claim C4: every provisioning run emits exactly one terminal event
(`Done` or `Error`), it is the last event of the sequence, and no event of
any kind follows it: the event list is a terminal-free prefix followed by
one terminal event. -/
theorem C4_one_terminal_event (w : DockerWorld) (cfg : DbContainerConfig) :
    ∃ pre term, (create_container w cfg).1 = pre ++ [term] ∧
      isTerminal term = true ∧ ∀ e ∈ pre, isTerminal e = false := by
  unfold create_container
  split
  · exact ⟨[], _, rfl, rfl, by simp⟩
  · exact ⟨[], _, rfl, rfl, by simp⟩
  · split
    · refine ⟨(pullEvents w.pullStream).1, _, rfl, rfl, ?_⟩
      intro e he
      rw [mem_pullEvents _ e he]
      rfl
    · rcases buildPhase_fst w cfg with hb | ⟨msg, hb⟩
      · rw [hb]
        refine ⟨(pullEvents w.pullStream).1 ++ [CreateContainerEvent.Building],
          CreateContainerEvent.Done, by simp, rfl, ?_⟩
        intro e he
        rcases List.mem_append.mp he with he | he
        · rw [mem_pullEvents _ e he]; rfl
        · rw [List.mem_singleton.mp he]; rfl
      · rw [hb]
        refine ⟨(pullEvents w.pullStream).1 ++ [CreateContainerEvent.Building],
          CreateContainerEvent.Error msg, by simp, rfl, ?_⟩
        intro e he
        rcases List.mem_append.mp he with he | he
        · rw [mem_pullEvents _ e he]; rfl
        · rw [List.mem_singleton.mp he]; rfl

/-- Claim C2: for a spec whose name is free on the daemon, whose image pull
stream yields at least one element and only successful elements, and whose
volume creations and container create/start calls all succeed, the run's
event sequence is a non-empty block of `Pulling` events (one per stream
element), then exactly one `Building`, then exactly one `Done`, and no
`Error` event appears anywhere. -/
theorem C2_happy_path_events (w : DockerWorld) (cfg : DbContainerConfig)
    (hname : w.inspectContainer cfg.name = InspectResult.notFound)
    (hpull : w.pullStream ≠ [])
    (hok : ∀ i ∈ w.pullStream, i = PullItem.ok)
    (hvol : ∀ q ∈ cfg.voluems, create_volume w q.1 = Except.ok ())
    (hcreate : w.createContainerResult cfg.name = Except.ok ())
    (hstart : w.startContainerResult cfg.name = Except.ok ()) :
    (create_container w cfg).1 =
      List.replicate w.pullStream.length CreateContainerEvent.Pulling ++
        [CreateContainerEvent.Building, CreateContainerEvent.Done] ∧
    0 < w.pullStream.length ∧
    ∀ msg, CreateContainerEvent.Error msg ∉ (create_container w cfg).1 := by
  have hp := pullEvents_all_ok w.pullStream hok
  have hv := provisionVolumes_ok w cfg.voluems hvol
  have hev : (create_container w cfg).1 =
      List.replicate w.pullStream.length CreateContainerEvent.Pulling ++
        [CreateContainerEvent.Building, CreateContainerEvent.Done] := by
    unfold create_container
    rw [hname]
    simp only [hp]
    unfold buildPhase
    rw [hv, hcreate, hstart]
  refine ⟨hev, List.length_pos.mpr hpull, ?_⟩
  intro msg hmem
  rw [hev] at hmem
  rcases List.mem_append.mp hmem with hmem | hmem
  · exact absurd (List.eq_of_mem_replicate hmem) (by simp)
  · simp at hmem

/-- Witness for C2 at the end-to-end example: the submitted `pg` spec against
an all-succeeding daemon with a two-element pull stream yields
`Pulling, Pulling, Building, Done` and no `Error`. -/
theorem C2_happy_path_events_witness :
    (create_container happyWorld (submitTransform pgSpec)).1 =
      List.replicate happyWorld.pullStream.length CreateContainerEvent.Pulling ++
        [CreateContainerEvent.Building, CreateContainerEvent.Done] ∧
    0 < happyWorld.pullStream.length ∧
    ∀ msg, CreateContainerEvent.Error msg ∉
      (create_container happyWorld (submitTransform pgSpec)).1 :=
  C2_happy_path_events happyWorld (submitTransform pgSpec) rfl (by decide)
    (by decide) (by decide) rfl rfl

/-- Counterexample to C1 as stated: the submitted `pg` spec whose namespaced
volume name `db-mgr__pg__data` collides with an existing volume does not make
the run emit exactly one event: a `Building` event precedes the terminal
`Error`, so two events are emitted. -/
theorem C1_counterexample :
    (create_container volConflictWorld (submitTransform pgSpec)).1 =
      [CreateContainerEvent.Building,
       CreateContainerEvent.Error "Container name conflict db-mgr__pg__data"] ∧
    ((create_container volConflictWorld (submitTransform pgSpec)).1).length ≠ 1 := by
  refine ⟨rfl, by decide⟩

/-- Claim C1 as amended: a spec whose name collides with an existing
container makes the run emit exactly one event, an `Error` mentioning that
name; a spec whose namespaced volume name collides with an existing volume
(the name itself being free, the pull succeeding, the earlier volumes
succeeding) makes the run terminate with a single `Error` mentioning the
colliding volume name, emitted after the run's `Pulling` events and its one
`Building` event rather than being the only event. -/
theorem C1_conflict_error :
    (∀ (w : DockerWorld) (cfg : DbContainerConfig),
      w.inspectContainer cfg.name = InspectResult.found →
      (create_container w cfg).1 =
        [CreateContainerEvent.Error ("Container name conflict " ++ cfg.name)]) ∧
    (∀ (w : DockerWorld) (cfg : DbContainerConfig)
        (pre post : List (String × String)) (n p : String),
      cfg.voluems = pre ++ (n, p) :: post →
      w.inspectContainer cfg.name = InspectResult.notFound →
      (∀ i ∈ w.pullStream, i = PullItem.ok) →
      (∀ q ∈ pre, create_volume w q.1 = Except.ok ()) →
      w.inspectVolume n = InspectResult.found →
      (create_container w cfg).1 =
        List.replicate w.pullStream.length CreateContainerEvent.Pulling ++
          [CreateContainerEvent.Building,
           CreateContainerEvent.Error ("Container name conflict " ++ n)]) := by
  constructor
  · intro w cfg hname
    unfold create_container
    rw [hname]
  · intro w cfg pre post n p hsplit hname hok hpre hconf
    have hp := pullEvents_all_ok w.pullStream hok
    have hfail : create_volume w n =
        Except.error ("Container name conflict " ++ n) := by
      unfold create_volume
      rw [hconf]
    have hv : provisionVolumes w cfg.voluems =
        some ("Container name conflict " ++ n) := by
      rw [hsplit, provisionVolumes_append_ok w pre _ hpre]
      simp [provisionVolumes, hfail]
    unfold create_container
    rw [hname]
    simp only [hp]
    unfold buildPhase
    rw [hv]

/-- Counterexample to C3 as stated: against a daemon whose pull stream yields
zero elements (already-cached image), the run of the submitted `pg` spec
emits `Building, Done` and no `Pulling` event at all. -/
theorem C3_counterexample :
    (create_container cachedWorld (submitTransform pgSpec)).1 =
      [CreateContainerEvent.Building, CreateContainerEvent.Done] ∧
    CreateContainerEvent.Pulling ∉
      (create_container cachedWorld (submitTransform pgSpec)).1 := by
  refine ⟨rfl, by decide⟩

/-- Claim C3 as amended: when the underlying pull stream yields zero
elements, the pipeline emits no `Pulling` event at all — one `Pulling` event
is emitted per stream element, so the consumer does not observe the pulling
phase and the first event of the run is `Building`. -/
theorem C3_empty_pull_no_pulling (w : DockerWorld) (cfg : DbContainerConfig)
    (hname : w.inspectContainer cfg.name = InspectResult.notFound)
    (hempty : w.pullStream = []) :
    CreateContainerEvent.Pulling ∉ (create_container w cfg).1 ∧
    ((create_container w cfg).1).head? = some CreateContainerEvent.Building := by
  have hev : (create_container w cfg).1 =
      CreateContainerEvent.Building :: (buildPhase w cfg).1 := by
    unfold create_container
    rw [hname, hempty]
    simp [pullEvents]
  rw [hev]
  constructor
  · intro hmem
    rcases List.mem_cons.mp hmem with h | h
    · cases h
    · rcases buildPhase_fst w cfg with hb | ⟨msg, hb⟩ <;> rw [hb] at h <;>
        simp at h
  · rfl

/-- Witness for C3 as amended, at the cached-image daemon and the submitted
`pg` spec. -/
theorem C3_empty_pull_no_pulling_witness :
    CreateContainerEvent.Pulling ∉
      (create_container cachedWorld (submitTransform pgSpec)).1 ∧
    ((create_container cachedWorld (submitTransform pgSpec)).1).head? =
      some CreateContainerEvent.Building :=
  C3_empty_pull_no_pulling cachedWorld (submitTransform pgSpec) rfl rfl

/-- Claim C5: in a spec submitted via `SubmitPressed`, no variable with an
empty value survives the transform; the submitted env strings are exactly
the non-empty-valued entries formatted as `NAME="VALUE"`; every
non-empty-valued entry of the edited config appears so formatted; and any
create-container call the run performs passes exactly those env strings. -/
theorem C5_env_filtering (cfg : DbContainerConfig) :
    (∀ p ∈ (submitTransform cfg).vars, p.2 ≠ "") ∧
    envStrings (submitTransform cfg).vars =
      (cfg.vars.filter (fun p => p.2 != "")).map
        (fun p => p.1 ++ "=\"" ++ p.2 ++ "\"") ∧
    (∀ n v, (n, v) ∈ cfg.vars → v ≠ "" →
      (n ++ "=\"" ++ v ++ "\"") ∈ envStrings (submitTransform cfg).vars) ∧
    (∀ (w : DockerWorld) (nm img : String) (env : List String)
        (mounts : List (String × String)),
      DockerCall.createContainer nm img env mounts ∈
        (create_container w (submitTransform cfg)).2 →
      env = (cfg.vars.filter (fun p => p.2 != "")).map
        (fun p => p.1 ++ "=\"" ++ p.2 ++ "\"")) := by
  refine ⟨?_, rfl, ?_, ?_⟩
  · intro p hp
    have := List.of_mem_filter hp
    simpa using this
  · intro n v hmem hne
    refine List.mem_map.mpr ⟨(n, v), ?_, rfl⟩
    exact List.mem_filter.mpr ⟨hmem, by simpa using hne⟩
  · intro w nm img env mounts h
    exact (createCall_spec w (submitTransform cfg) nm img env mounts h).2.2.1

/-- Claim C6: the `SubmitPressed` transform renames every volume by the fixed
deterministic prefixing scheme `db-mgr__<container>__<volume>` applied to the
entered container name and the volume name, keeping the mount path; for name
`pg` and volume `data` the provisioned volume name is `db-mgr__pg__data`.
The scheme is a pure function of the pair, so repeated submission of an
identical spec yields the identical volume names. -/
theorem C6_volume_namespacing :
    (∀ cfg : DbContainerConfig,
      (submitTransform cfg).voluems =
        cfg.voluems.map (fun p => (namespaceVolume cfg.name p.1, p.2))) ∧
    namespaceVolume "pg" "data" = "db-mgr__pg__data" ∧
    (∀ c v : String, namespaceVolume c v = "db-mgr__" ++ c ++ "__" ++ v) ∧
    ((submitTransform pgSpec).voluems =
      [("db-mgr__pg__data", "/var/lib/postgresql/data")]) := by
  exact ⟨fun cfg => rfl, rfl, fun c v => rfl, rfl⟩

/-- Claim C7: the volume loop is sequential and aborts at the first failing
volume: when every volume before `(n, p)` succeeds and `(n, p)` itself fails
(by conflict or by a failed create), the loop's outcome is that failure's
message and the runtime calls it performs are exactly those of the list
truncated right after `(n, p)` — no inspect or create call is made for any
volume after the failing one. -/
theorem C7_first_failing_volume_aborts (w : DockerWorld)
    (pre post : List (String × String)) (n p msg : String)
    (hpre : ∀ q ∈ pre, create_volume w q.1 = Except.ok ())
    (hfail : create_volume w n = Except.error msg) :
    provisionVolumes w (pre ++ (n, p) :: post) = some msg ∧
    volumeCalls w (pre ++ (n, p) :: post) = volumeCalls w (pre ++ [(n, p)]) := by
  constructor
  · rw [provisionVolumes_append_ok w pre _ hpre]
    simp [provisionVolumes, hfail]
  · rw [volumeCalls_append_ok w pre _ hpre, volumeCalls_append_ok w pre _ hpre,
      volumeCalls_stop w n p msg post hfail]

/-- Witness for C7: with only the volume name `v2` taken, the loop over
`v1, v2, v3` reports the `v2` conflict and performs the calls of `v1, v2`
only. -/
theorem C7_first_failing_volume_aborts_witness :
    provisionVolumes volFailWorld
        ([("v1", "/a")] ++ ("v2", "/b") :: [("v3", "/c")]) =
      some "Container name conflict v2" ∧
    volumeCalls volFailWorld ([("v1", "/a")] ++ ("v2", "/b") :: [("v3", "/c")]) =
      volumeCalls volFailWorld ([("v1", "/a")] ++ [("v2", "/b")]) :=
  C7_first_failing_volume_aborts volFailWorld [("v1", "/a")] [("v3", "/c")]
    "v2" "/b" "Container name conflict v2" (by decide) (by decide)

/-- Claim C8: `get_containers` never turns a partial entry into an error —
for every label-filtered summary list and every inspect oracle it returns
`ok` of exactly the projections of the entries that carry an id, whose
inspect succeeded, and whose required fields resolve; an inspect response is
projected (rather than silently dropped) precisely when its id, name,
config image and state status are all present; only a failed listing makes
the call itself an error. -/
theorem C8_listing_drops_partial_entries (l : List ContainerSummary)
    (inspect : String → Option InspectResponse) :
    get_containers (Except.ok l) inspect =
      Except.ok ((l.filterMap (fun s => s.id.bind inspect)).filterMap
        projectContainer) ∧
    (∀ r : InspectResponse,
      (projectContainer r).isSome ↔
        (r.id.isSome ∧ r.name.isSome ∧
          (r.config.bind RespConfig.image).isSome ∧
          (r.state.bind RespState.status).isSome)) ∧
    (∀ e, get_containers (Except.error e) inspect = Except.error e) := by
  refine ⟨rfl, ?_, fun e => rfl⟩
  intro r
  obtain ⟨oid, oname, ocfg, ost, om⟩ := r
  cases oid <;> cases oname <;> cases ocfg <;> cases ost <;>
    simp [projectContainer]
  case some.some.some.some c st =>
    obtain ⟨oimg, oenv⟩ := c
    obtain ⟨ostat⟩ := st
    cases oimg <;> cases ostat <;> simp [projectContainer]

/-- Counterexample to C9 as stated: the operator-entered name
`a<TAB>b` is stored unchanged, so the stored name still contains a
whitespace character (the tab): only spaces are replaced. -/
theorem C9_counterexample :
    nameChanged "a\tb" = "a\tb" ∧
    '\t' ∈ (nameChanged "a\tb").toList ∧ Char.isWhitespace '\t' = true := by
  decide

/-- Claim C9 as amended: the `NameChanged` handler replaces every space
character (and only spaces) of the entered name with a dash, so the stored
name contains no space character; other whitespace such as a tab is stored
unchanged. -/
theorem C9_spaces_become_dashes :
    (∀ s : String,
      ((nameChanged s).toList.all (fun c => c != ' ')) = true) ∧
    (∀ s : String,
      (nameChanged s).toList = s.toList.map
        (fun c => if c = ' ' then '-' else c)) ∧
    nameChanged "a b c" = "a-b-c" ∧
    nameChanged "a\tb" = "a\tb" := by
  refine ⟨?_, fun s => rfl, rfl, rfl⟩
  intro s
  rw [List.all_eq_true]
  intro c hc
  rcases List.mem_map.mp hc with ⟨c0, _, hmap⟩
  by_cases h0 : c0 = ' '
  · rw [h0] at hmap
    simp at hmap
    rw [← hmap]
    decide
  · simp [h0] at hmap
    rw [← hmap]
    simpa using h0

/-- Claim C10: the name submitted to the runtime is the entered name with the
fixed management prefix `db-mgr__` in front, which is never the entered name
itself; and in every run of the submitted spec the conflict check (the
run's first runtime call) and the create-container call both use exactly
that prefixed name. -/
theorem C10_prefixed_name_submitted (cfg : DbContainerConfig) :
    (submitTransform cfg).name = "db-mgr__" ++ cfg.name ∧
    (submitTransform cfg).name ≠ cfg.name ∧
    (∀ w : DockerWorld, ∃ rest,
      (create_container w (submitTransform cfg)).2 =
        DockerCall.inspectContainer ("db-mgr__" ++ cfg.name) :: rest) ∧
    (∀ (w : DockerWorld) (nm img : String) (env : List String)
        (mounts : List (String × String)),
      DockerCall.createContainer nm img env mounts ∈
        (create_container w (submitTransform cfg)).2 →
      nm = "db-mgr__" ++ cfg.name) := by
  refine ⟨rfl, ?_, ?_, ?_⟩
  · intro h
    have hlen := congrArg String.length h
    have hpre : (submitTransform cfg).name = "db-mgr__" ++ cfg.name := rfl
    rw [hpre, String.length_append] at hlen
    have h8 : ("db-mgr__" : String).length = 8 := rfl
    rw [h8] at hlen
    omega
  · intro w
    unfold create_container
    split
    · exact ⟨_, rfl⟩
    · exact ⟨_, rfl⟩
    · split
      · exact ⟨_, rfl⟩
      · exact ⟨_, rfl⟩
  · intro w nm img env mounts h
    exact (createCall_spec w (submitTransform cfg) nm img env mounts h).1

end DbMgr
